import Mathlib

/-!
Verification of the proximity-filtering and ranking component of the
NGO recommendation backend.

The repository contains two variants of the component:
* `main.py` : `haversine_distance` plus `get_nearby_ngos` with a
  bounding-box pre-filter (latitude handled by the repository query,
  longitude checked in the loop), a query limit of 100 and a result cap
  of 50; repository failures are caught and turned into `[]`; the raw
  candidate mapping is spread (`**ngo_data`) into the result after the
  computed fields.
* `recommendation.py` : the same distance function, no pre-filter, no
  cap; a fixed response field set is rebuilt; failures are re-raised as
  an HTTP 500 error whose detail wraps the original message.

Candidate records are opaque key-value mappings (Firestore documents).
We embed them as association lists of `String` keys and a `Val` value
type.  Python float arithmetic is idealised: the pipelines are generic
over a linear ordered field `α` (so that concrete witnesses can be
evaluated over `ℚ`), and the transcendental pieces (`cos ∘ radians`,
the haversine distance itself) are parameters, instantiated with the
genuine real-valued functions for the theorems about the actual
program.  Python `round(x, 2)` (round half to even) is modelled by
`round2`.
-/

namespace GeoSmile

/-- A JSON-like value stored in a candidate record: null, string,
number, nested object or array.  Numbers are drawn from the field `α`
modelling Python floats. -/
inductive Val (α : Type) : Type where
  | null : Val α
  | str : String → Val α
  | num : α → Val α
  | obj : List (String × Val α) → Val α
  | arr : List (Val α) → Val α

/-- A Python dict with string keys, in insertion order. -/
abbrev DictT (α : Type) := List (String × Val α)

/-- Dictionary lookup (`d.get(k)` / `d[k]` when present): first entry
with the given key. -/
def dlookup {α : Type} (k : String) : DictT α → Option (Val α)
  | [] => none
  | p :: rest => if p.1 = k then some p.2 else dlookup k rest

/-- Python `d.get(k, default)`. -/
def dget {α : Type} (d : DictT α) (k : String) (v : Val α) : Val α :=
  (dlookup k d).getD v

/-- Assignment `d[k] = v` of a Python dict: an existing key keeps its
position and gets the new value, a new key is appended. -/
def dinsert {α : Type} (d : DictT α) (k : String) (v : Val α) : DictT α :=
  if (dlookup k d).isSome then d.map (fun p => if p.1 = k then (k, v) else p)
  else d ++ [(k, v)]

/-- Build a dict by successive assignment of the given pairs into a
base dict; models both dict literals and the `**data` spread. -/
def spreadInto {α : Type} (base : DictT α) (ps : List (String × Val α)) : DictT α :=
  ps.foldl (fun d p => dinsert d p.1 p.2) base

/-- A Python dict literal. -/
def mkDict {α : Type} (ps : List (String × Val α)) : DictT α :=
  spreadInto [] ps

/-- A document of the `ngo` collection: a repository-assigned key
(`ngo.id`) together with its data mapping (`ngo.to_dict()`). -/
structure Doc (α : Type) where
  id : String
  data : DictT α

/-- Python `v is None` applied to the result of a `.get`: the key is absent, or its
value is null. -/
def isNoneVal {α : Type} : Option (Val α) → Bool
  | none => true
  | some Val.null => true
  | _ => false

/-- The latitude and longitude of a document, when its `location` field
is an object carrying numeric values for both. -/
def coordsOf {α : Type} (d : Doc α) : Option (α × α) :=
  match dlookup "location" d.data with
  | some (Val.obj fs) =>
    match dlookup "latitude" fs, dlookup "longitude" fs with
    | some (Val.num la), some (Val.num lo) => some (la, lo)
    | _, _ => none
  | _ => none

section Field

variable {α : Type} [LinearOrderedField α] [FloorRing α]

/-- Python `round` to the nearest integer, halves to even. -/
def pyRound (x : α) : ℤ :=
  if Int.fract x = 1 / 2 then 2 * round (x / 2) else round x

/-- Python `round(x, 2)`. -/
def round2 (x : α) : α :=
  ((pyRound (x * 100) : ℤ) : α) / 100

/-- The sort key `lambda x: x['distance']` used on result dicts.  A
non-numeric value would raise `TypeError` in a comparison; the claims
considered here never compare a non-numeric distance, and the model
returns `0` there. -/
def keyOf (r : DictT α) : α :=
  match dlookup "distance" r with
  | some (Val.num q) => q
  | _ => 0

/-- Comparison of two result dicts by their distance key. -/
def keyLe (a b : DictT α) : Prop := keyOf a ≤ keyOf b

instance decKeyLe : DecidableRel (keyLe (α := α)) :=
  fun a b => inferInstanceAs (Decidable (keyOf a ≤ keyOf b))

instance keyLeTotal : IsTotal (DictT α) keyLe :=
  ⟨fun a b => le_total (keyOf a) (keyOf b)⟩

instance keyLeTrans : IsTrans (DictT α) keyLe :=
  ⟨fun _ _ _ hab hbc => le_trans hab hbc⟩

/-- Python `nearby_ngos.sort(key=lambda x: x['distance'])`: its sort is
stable, modelled with the stable `List.insertionSort`. -/
def pySort (l : List (DictT α)) : List (DictT α) :=
  List.insertionSort keyLe l

/-- The `for ngo in ngo_docs:` loop: process documents in order,
collecting produced results; a raised exception (modelled as
`Except.error`) aborts the loop. -/
def processList {ε : Type} (f : Doc α → Except ε (Option (DictT α))) :
    List (Doc α) → Except ε (List (DictT α))
  | [] => Except.ok []
  | d :: rest =>
    match f d with
    | Except.error e => Except.error e
    | Except.ok none => processList f rest
    | Except.ok (some r) =>
      match processList f rest with
      | Except.error e => Except.error e
      | Except.ok rs => Except.ok (r :: rs)

/-- The result dict built by the `main.py` variant: the literal fields
followed by the `**ngo_data` spread. -/
def mkResultMain (i : String) (data : DictT α) (locv : Val α) (dval : α) : DictT α :=
  spreadInto (mkDict
    [("ngo_id", Val.str i),
     ("ngoName", dget data "ngoName" (Val.str "Unknown")),
     ("distance", Val.num (round2 dval)),
     ("location", locv),
     ("description", dget data "description" Val.null),
     ("contact", dget data "contact" Val.null),
     ("logoUrl", dget data "logoUrl" Val.null),
     ("ngoRating", dget data "ngoRating" Val.null)]) data

/-- The body of the `main.py` loop for one document, after the
bounding-box query.  `Except.error` marks a raised exception
(`AttributeError` on a non-dict `location`, `TypeError` on a
non-numeric coordinate actually used in arithmetic). -/
def processDocMain (dist : α → α → α → α → α) (uLat uLon radius lonRange : α)
    (d : Doc α) : Except Unit (Option (DictT α)) :=
  match dlookup "location" d.data with
  | none => Except.ok none
  | some (Val.obj fs) =>
    let latv := dlookup "latitude" fs
    let lonv := dlookup "longitude" fs
    if isNoneVal latv || isNoneVal lonv then Except.ok none
    else
      match lonv with
      | some (Val.num lo) =>
        if |lo - uLon| ≤ lonRange then
          match latv with
          | some (Val.num la) =>
            let dval := dist uLat uLon la lo
            if dval ≤ radius then Except.ok (some (mkResultMain d.id d.data (Val.obj fs) dval))
            else Except.ok none
          | _ => Except.error ()
        else Except.ok none
      | _ => Except.error ()
  | some _ => Except.error ()

/-- The repository-side filter of the `main.py` query: documents whose
`location.latitude` is a number within `[user_lat - lat_range,
user_lat + lat_range]` (a range query on a field never matches
documents where the field is missing or non-numeric). -/
def latInBox (uLat latRange : α) (d : Doc α) : Bool :=
  match dlookup "location" d.data with
  | some (Val.obj fs) =>
    match dlookup "latitude" fs with
    | some (Val.num q) => decide (uLat - latRange ≤ q) && decide (q ≤ uLat + latRange)
    | _ => false
  | _ => false

/-- The function `get_nearby_ngos` of `main.py`.  `cosr` models `cos ∘ radians` and
`dist` models `haversine_distance`; `col` is the outcome of reading the
`ngo` collection (`Except.error` when the repository raises).  Any
exception, of the fetch or of the loop, is caught and masked as `[]`. -/
def getNearbyMain (cosr : α → α) (dist : α → α → α → α → α) (uLat uLon radius : α)
    (col : Except Unit (List (Doc α))) : List (DictT α) :=
  match col with
  | Except.error _ => []
  | Except.ok docs =>
    let latRange := radius / 111
    let lonRange := radius / (111 * cosr uLat)
    let fetched := (docs.filter (latInBox uLat latRange)).take 100
    match processList (processDocMain dist uLat uLon radius lonRange) fetched with
    | Except.error _ => []
    | Except.ok rs => (pySort rs).take 50

/-- The result dict built by the `recommendation.py` variant: a fixed
field set, no spread. -/
def mkResultRec (i : String) (data : DictT α) (fs : DictT α) (la lo dval : α) : DictT α :=
  mkDict
    [("ngo_id", dget data "ngoId" (Val.str i)),
     ("ngoName", dget data "ngoName" (Val.str "Unknown")),
     ("distance", Val.num (round2 dval)),
     ("location", Val.obj
        [("latitude", Val.num la), ("longitude", Val.num lo),
         ("address", dget fs "address" (Val.str ""))]),
     ("description", dget data "description" Val.null),
     ("email", dget data "email" Val.null),
     ("phone", dget data "phone" Val.null),
     ("logoUrl", dget data "logoUrl" (Val.str "")),
     ("categories", dget data "categories" (Val.arr [])),
     ("displayType", dget data "displayType" Val.null),
     ("district", dget data "district" Val.null),
     ("state", dget data "state" Val.null),
     ("isVerified", dget data "isVerified" Val.null),
     ("mission", dget data "mission" Val.null),
     ("vision", dget data "vision" Val.null)]

/-- The body of the `recommendation.py` loop for one document. -/
def processDocRec (dist : α → α → α → α → α) (uLat uLon radius : α)
    (d : Doc α) : Except String (Option (DictT α)) :=
  match dlookup "location" d.data with
  | none => Except.ok none
  | some (Val.obj fs) =>
    let latv := dlookup "latitude" fs
    let lonv := dlookup "longitude" fs
    if isNoneVal latv || isNoneVal lonv then Except.ok none
    else
      match latv with
      | some (Val.num la) =>
        match lonv with
        | some (Val.num lo) =>
          let dval := dist uLat uLon la lo
          if dval ≤ radius then Except.ok (some (mkResultRec d.id d.data fs la lo dval))
          else Except.ok none
        | _ => Except.error "TypeError"
      | _ => Except.error "TypeError"
  | some _ => Except.error "AttributeError"

/-- The function `get_nearby_ngos` of `recommendation.py`: no pre-filter, no cap.
Any exception `e` is re-raised as an HTTP 500 whose detail string wraps
`str(e)`. -/
def getNearbyRec (dist : α → α → α → α → α) (uLat uLon radius : α)
    (col : Except String (List (Doc α))) : Except String (List (DictT α)) :=
  match col with
  | Except.error e => Except.error ("Error getting nearby NGOs: " ++ e)
  | Except.ok docs =>
    match processList (processDocRec dist uLat uLon radius) docs with
    | Except.error e => Except.error ("Error getting nearby NGOs: " ++ e)
    | Except.ok rs => Except.ok (pySort rs)

/-- The result list of the `recommendation.py` variant on success,
`[]` on failure (used to state properties of the success case without
an explicit hypothesis). -/
def recOutD (dist : α → α → α → α → α) (uLat uLon radius : α)
    (col : Except String (List (Doc α))) : List (DictT α) :=
  match getNearbyRec dist uLat uLon radius col with
  | Except.ok rs => rs
  | Except.error _ => []

/-- The loop output of the `main.py` variant in input order, before
sorting and truncation, `[]` on a raised exception. -/
def mainSurvivors (cosr : α → α) (dist : α → α → α → α → α) (uLat uLon radius : α)
    (docs : List (Doc α)) : List (DictT α) :=
  let latRange := radius / 111
  let lonRange := radius / (111 * cosr uLat)
  match processList (processDocMain dist uLat uLon radius lonRange)
      ((docs.filter (latInBox uLat latRange)).take 100) with
  | Except.error _ => []
  | Except.ok rs => rs

/-- The loop output of the `recommendation.py` variant in input order,
before sorting, `[]` on a failure. -/
def recSurvivors (dist : α → α → α → α → α) (uLat uLon radius : α)
    (col : Except String (List (Doc α))) : List (DictT α) :=
  match col with
  | Except.error _ => []
  | Except.ok docs =>
    match processList (processDocRec dist uLat uLon radius) docs with
    | Except.error _ => []
    | Except.ok rs => rs

end Field

/-! ### Real-valued instantiation: the actual program -/

open Real in
/-- Python `math.atan2`. -/
noncomputable def atan2 (y x : ℝ) : ℝ :=
  if 0 < x then arctan (y / x)
  else if x < 0 ∧ 0 ≤ y then arctan (y / x) + π
  else if x < 0 ∧ y < 0 then arctan (y / x) - π
  else if x = 0 ∧ 0 < y then π / 2
  else if x = 0 ∧ y < 0 then -(π / 2)
  else 0

/-- Python `math.radians`. -/
noncomputable def deg2rad (x : ℝ) : ℝ := x * (Real.pi / 180)

/-- The value `cos(radians(x))`, as used for the longitude range of the bounding
box in `main.py`. -/
noncomputable def cosr (x : ℝ) : ℝ := Real.cos (deg2rad x)

/-- The function `haversine_distance` from the source (identical in both variants):
coordinates to radians, `a = sin²(dlat/2) + cos lat1 · cos lat2 ·
sin²(dlon/2)`, `c = 2·atan2(√a, √(1-a))`, result `c * 6371`. -/
noncomputable def haversine_distance (lat1 lon1 lat2 lon2 : ℝ) : ℝ :=
  let rlat1 := deg2rad lat1
  let rlat2 := deg2rad lat2
  let rlon1 := deg2rad lon1
  let rlon2 := deg2rad lon2
  let dlat := rlat2 - rlat1
  let dlon := rlon2 - rlon1
  let a := Real.sin (dlat / 2) ^ 2 +
    Real.cos rlat1 * Real.cos rlat2 * Real.sin (dlon / 2) ^ 2
  let c := 2 * atan2 (Real.sqrt a) (Real.sqrt (1 - a))
  c * 6371

/-- The function `get_nearby_ngos` of `main.py` over the actual real-valued
transcendental functions. -/
noncomputable def get_nearby_ngos_main (uLat uLon radius : ℝ)
    (col : Except Unit (List (Doc ℝ))) : List (DictT ℝ) :=
  getNearbyMain cosr haversine_distance uLat uLon radius col

/-- The function `get_nearby_ngos` of `recommendation.py` over the actual
real-valued distance. -/
noncomputable def get_nearby_ngos_rec (uLat uLon radius : ℝ)
    (col : Except String (List (Doc ℝ))) : Except String (List (DictT ℝ)) :=
  getNearbyRec haversine_distance uLat uLon radius col

/-! ### Dictionary lemmas -/

theorem dlookup_eq_none {α : Type} (k : String) (d : DictT α)
    (h : k ∉ d.map Prod.fst) : dlookup k d = none := by
  induction d with
  | nil => rfl
  | cons p rest ih =>
    simp only [List.map_cons, List.mem_cons, not_or] at h
    simp only [dlookup]
    rw [if_neg fun hpk => h.1 hpk.symm]
    exact ih h.2

theorem dlookup_append_some {α : Type} {k : String} {d1 : DictT α} {v : Val α}
    (d2 : DictT α) (h : dlookup k d1 = some v) : dlookup k (d1 ++ d2) = some v := by
  induction d1 with
  | nil => cases h
  | cons p rest ih =>
    by_cases hp : p.1 = k
    · simp only [dlookup, if_pos hp] at h ⊢
      exact h
    · simp only [dlookup, if_neg hp] at h ⊢
      exact ih h

theorem dlookup_append_none {α : Type} {k : String} {d1 : DictT α}
    (d2 : DictT α) (h : dlookup k d1 = none) :
    dlookup k (d1 ++ d2) = dlookup k d2 := by
  induction d1 with
  | nil => rfl
  | cons p rest ih =>
    by_cases hp : p.1 = k
    · simp [dlookup, if_pos hp] at h
    · simp only [dlookup, if_neg hp] at h ⊢
      exact ih h

theorem dlookup_mapReplace {α : Type} {k k2 : String} (v : Val α) (d : DictT α)
    (h : k ≠ k2) :
    dlookup k (d.map (fun p => if p.1 = k2 then (k2, v) else p)) = dlookup k d := by
  induction d with
  | nil => rfl
  | cons p rest ih =>
    by_cases hp : p.1 = k2
    · have hk2 : ¬(k2 = k) := fun he => h he.symm
      have hpk : ¬(p.1 = k) := hp ▸ hk2
      simp only [List.map_cons, if_pos hp, dlookup, if_neg hk2, if_neg hpk]
      exact ih
    · simp only [List.map_cons, if_neg hp, dlookup]
      by_cases hk : p.1 = k
      · rw [if_pos hk, if_pos hk]
      · rw [if_neg hk, if_neg hk]
        exact ih

theorem dlookup_dinsert_self {α : Type} (d : DictT α) (k : String) (v : Val α) :
    dlookup k (dinsert d k v) = some v := by
  unfold dinsert
  by_cases h : (dlookup k d).isSome
  · rw [if_pos h]
    induction d with
    | nil => simp [dlookup] at h
    | cons p rest ih =>
      by_cases hp : p.1 = k
      · simp [dlookup, hp]
      · simp only [List.map_cons, if_neg hp, dlookup, if_neg hp]
        exact ih (by simpa [dlookup, if_neg hp] using h)
  · rw [if_neg h]
    have hd : dlookup k d = none := by
      cases hv : dlookup k d with
      | none => rfl
      | some w => rw [hv] at h; simp at h
    rw [dlookup_append_none _ hd]
    simp [dlookup]

theorem dlookup_dinsert_ne {α : Type} {k k2 : String} (d : DictT α) (v : Val α)
    (h : k ≠ k2) : dlookup k (dinsert d k2 v) = dlookup k d := by
  unfold dinsert
  by_cases hs : (dlookup k2 d).isSome
  · rw [if_pos hs]
    exact dlookup_mapReplace v d h
  · rw [if_neg hs]
    cases hv : dlookup k d with
    | none =>
      rw [dlookup_append_none _ hv]
      simp only [dlookup, if_neg (show ¬(k2 = k) from fun he => h he.symm)]
    | some w => exact dlookup_append_some _ hv

theorem spreadInto_cons {α : Type} (base : DictT α) (p : String × Val α)
    (ps : List (String × Val α)) :
    spreadInto base (p :: ps) = spreadInto (dinsert base p.1 p.2) ps := rfl

theorem dlookup_spreadInto_none {α : Type} (k : String) (ps : List (String × Val α))
    (base : DictT α) (h : dlookup k ps = none) :
    dlookup k (spreadInto base ps) = dlookup k base := by
  induction ps generalizing base with
  | nil => rfl
  | cons p rest ih =>
    have hp : ¬(p.1 = k) := by
      intro he
      simp [dlookup, if_pos he] at h
    have hr : dlookup k rest = none := by simpa [dlookup, if_neg hp] using h
    rw [spreadInto_cons, ih _ hr, dlookup_dinsert_ne _ _ (fun he => hp he.symm)]

theorem dlookup_spreadInto_some {α : Type} {k : String} {v : Val α}
    {ps : List (String × Val α)} (base : DictT α)
    (hnd : (ps.map Prod.fst).Nodup) (h : dlookup k ps = some v) :
    dlookup k (spreadInto base ps) = some v := by
  induction ps generalizing base with
  | nil => cases h
  | cons p rest ih =>
    rw [spreadInto_cons]
    rw [List.map_cons, List.nodup_cons] at hnd
    by_cases hp : p.1 = k
    · have hv : v = p.2 := by
        simp only [dlookup, if_pos hp] at h
        exact (Option.some_inj.mp h).symm
      have hr : dlookup k rest = none := dlookup_eq_none _ _ (hp ▸ hnd.1)
      rw [dlookup_spreadInto_none _ _ _ hr, hv, ← hp, dlookup_dinsert_self]
    · have hr : dlookup k rest = some v := by simpa [dlookup, if_neg hp] using h
      exact ih _ hnd.2 hr

/-! ### Loop lemmas -/

theorem processList_append_skip {α ε : Type} [LinearOrderedField α] [FloorRing α]
    {f : Doc α → Except ε (Option (DictT α))} {d : Doc α}
    (h : f d = Except.ok none) (l1 l2 : List (Doc α)) :
    processList f (l1 ++ d :: l2) = processList f (l1 ++ l2) := by
  induction l1 with
  | nil => simp only [List.nil_append, processList, h]
  | cons a l1 ih =>
    simp only [List.cons_append, processList]
    rw [show l1.append (d :: l2) = l1 ++ d :: l2 from rfl,
      show l1.append l2 = l1 ++ l2 from rfl, ih]

theorem processList_map {α ε : Type} [LinearOrderedField α] [FloorRing α]
    {f : Doc α → Except ε (Option (DictT α))} {g : Doc α → DictT α}
    {l : List (Doc α)} (h : ∀ d ∈ l, f d = Except.ok (some (g d))) :
    processList f l = Except.ok (l.map g) := by
  induction l with
  | nil => rfl
  | cons a l ih =>
    have ha := h a (by simp)
    simp only [processList, ha, ih (fun d hd => h d (by simp [hd])), List.map_cons]

/-! ### Malformed candidates -/

/-- A candidate with no `location` mapping, or whose location object is
missing (or has a null) latitude or longitude. -/
def malformedDoc {α : Type} (d : Doc α) : Prop :=
  dlookup "location" d.data = none ∨
  ∃ fs, dlookup "location" d.data = some (Val.obj fs) ∧
    (isNoneVal (dlookup "latitude" fs) = true ∨ isNoneVal (dlookup "longitude" fs) = true)

/-! ### Claim theorems -/

/-- C2 (counterexample): in the `main.py` variant a repository failure
is NOT surfaced: `get_nearby_ngos` catches the exception and returns
`[]`, indistinguishable from a successful empty result.  This refutes
the claim that the failure is propagated unchanged and never masked. -/
theorem c2_counterexample :
    get_nearby_ngos_main 0 0 50 (Except.error ()) = ([] : List (DictT ℝ)) := rfl

/-- C2 (amended): when the record source cannot be read, the
`recommendation.py` variant surfaces a single failure, without retry,
wrapping the original message in its error detail; the `main.py`
variant instead masks the failure as a successful empty result. -/
theorem c2_amended {α : Type} [LinearOrderedField α] [FloorRing α]
    (cosrF : α → α) (dist : α → α → α → α → α) (uLat uLon radius : α) (e : String) :
    getNearbyRec dist uLat uLon radius (Except.error e) =
      Except.error ("Error getting nearby NGOs: " ++ e)
    ∧ getNearbyMain cosrF dist uLat uLon radius (Except.error ()) = [] :=
  ⟨rfl, rfl⟩

/-- C7: a candidate missing its location object, or missing (or having
null) latitude or longitude, is skipped by both variants: it produces
no result, raises no exception, contributes nothing to the loop output,
and the whole recommendation answer is as if it were absent. -/
theorem c7_thm {α : Type} [LinearOrderedField α] [FloorRing α]
    (dist : α → α → α → α → α) (uLat uLon radius lonRange : α)
    {d : Doc α} (h : malformedDoc d) (l1 l2 : List (Doc α)) :
    processDocMain dist uLat uLon radius lonRange d = Except.ok none
    ∧ processDocRec dist uLat uLon radius d = Except.ok none
    ∧ processList (processDocMain dist uLat uLon radius lonRange) (l1 ++ d :: l2)
        = processList (processDocMain dist uLat uLon radius lonRange) (l1 ++ l2)
    ∧ getNearbyRec dist uLat uLon radius (Except.ok (l1 ++ d :: l2))
        = getNearbyRec dist uLat uLon radius (Except.ok (l1 ++ l2)) := by
  have hm : processDocMain dist uLat uLon radius lonRange d = Except.ok none := by
    rcases h with h0 | ⟨fs, hfs, hnl⟩
    · unfold processDocMain
      rw [h0]
    · unfold processDocMain
      rw [hfs]
      have hcond : (isNoneVal (dlookup "latitude" fs)
          || isNoneVal (dlookup "longitude" fs)) = true := by
        rcases hnl with h1 | h1 <;> simp [h1]
      simp [hcond]
  have hr : processDocRec dist uLat uLon radius d = Except.ok none := by
    rcases h with h0 | ⟨fs, hfs, hnl⟩
    · unfold processDocRec
      rw [h0]
    · unfold processDocRec
      rw [hfs]
      have hcond : (isNoneVal (dlookup "latitude" fs)
          || isNoneVal (dlookup "longitude" fs)) = true := by
        rcases hnl with h1 | h1 <;> simp [h1]
      simp [hcond]
  refine ⟨hm, hr, processList_append_skip hm l1 l2, ?_⟩
  have hp := processList_append_skip hr l1 l2
  simp only [getNearbyRec, hp]

/-- A malformed candidate used as concrete input: its location object
has a latitude but no longitude. -/
def mdoc : Doc ℚ := ⟨"m", [("location", Val.obj [("latitude", Val.num 7)])]⟩

/-- A well-formed candidate at the origin, used as concrete input. -/
def okdoc : Doc ℚ := ⟨"a", [("location", Val.obj [("latitude", Val.num 0), ("longitude", Val.num 0)])]⟩

/-- A concrete computable distance function over `ℚ` used to evaluate
the generic pipelines in witnesses. -/
def qdist0 : ℚ → ℚ → ℚ → ℚ → ℚ := fun _ _ _ _ => 0

/-- Witness for C7 at a concrete input. -/
theorem c7_wit :
    malformedDoc (α := ℚ) mdoc
    ∧ (processDocMain qdist0 0 0 50 (50/111) mdoc = Except.ok none
      ∧ processDocRec qdist0 0 0 50 mdoc = Except.ok none
      ∧ processList (processDocMain qdist0 0 0 50 (50/111)) ([okdoc] ++ mdoc :: [okdoc])
          = processList (processDocMain qdist0 0 0 50 (50/111)) ([okdoc] ++ [okdoc])
      ∧ getNearbyRec qdist0 0 0 50 (Except.ok ([okdoc] ++ mdoc :: [okdoc]))
          = getNearbyRec qdist0 0 0 50 (Except.ok ([okdoc] ++ [okdoc]))) :=
  have hW : malformedDoc (α := ℚ) mdoc := Or.inr ⟨_, rfl, Or.inr rfl⟩
  ⟨hW, c7_thm qdist0 0 0 50 (50/111) hW [okdoc] [okdoc]⟩

/-- C10: in the `main.py` variant the raw candidate mapping is spread
into the result dict after the computed fields, so any key present in
the raw data — in particular `distance`, `ngoName` and `location` —
ends up with the raw record's value, overwriting the computed rounded
distance, the name fallback, or the location. -/
theorem c10_thm {α : Type} [LinearOrderedField α] [FloorRing α]
    (i : String) (data : DictT α) (locv : Val α) (dval : α) (k : String) (v : Val α)
    (hnd : (data.map Prod.fst).Nodup) (hk : dlookup k data = some v) :
    dlookup k (mkResultMain i data locv dval) = some v :=
  dlookup_spreadInto_some _ hnd hk

/-- Raw candidate data carrying its own `distance` key. -/
def c10data : DictT ℚ :=
  [("location", Val.obj [("latitude", Val.num 0), ("longitude", Val.num 0)]),
   ("distance", Val.num 999)]

/-- Witness for C10: the raw `distance` value 999 survives into the
result even though the computed rounded distance is 0. -/
theorem c10_wit :
    ((c10data.map Prod.fst).Nodup ∧ dlookup "distance" c10data = some (Val.num 999))
    ∧ dlookup "distance" (mkResultMain "k1" c10data Val.null (0:ℚ)) = some (Val.num 999) :=
  ⟨⟨by decide, rfl⟩,
    c10_thm "k1" c10data Val.null 0 "distance" (Val.num 999) (by decide) rfl⟩

/-! ### Sorting lemmas -/

theorem takePre {β : Type} (n : ℕ) (l : List β) : l.take n <+: l :=
  ⟨l.drop n, l.take_append_drop n⟩

theorem isPre_filter {β : Type} (p : β → Bool) {l1 l2 : List β} (h : l1 <+: l2) :
    l1.filter p <+: l2.filter p := by
  obtain ⟨t, rfl⟩ := h
  exact ⟨t.filter p, by rw [List.filter_append]⟩

theorem filter_orderedInsert {α : Type} [LinearOrderedField α] [FloorRing α]
    (q : α) (x : DictT α) (L : List (DictT α)) :
    (List.orderedInsert keyLe x L).filter (fun r => decide (keyOf r = q))
    = if keyOf x = q then x :: L.filter (fun r => decide (keyOf r = q))
      else L.filter (fun r => decide (keyOf r = q)) := by
  induction L with
  | nil =>
    by_cases hx : keyOf x = q <;> simp [List.orderedInsert, List.filter, hx]
  | cons b L ih =>
    by_cases hxb : keyLe x b
    · by_cases hx : keyOf x = q <;>
        simp [List.orderedInsert, if_pos hxb, List.filter_cons, hx]
    · have hlt : keyOf b < keyOf x := not_le.mp hxb
      by_cases hx : keyOf x = q
      · have hbq : ¬(keyOf b = q) := hx ▸ ne_of_lt hlt
        simp [List.orderedInsert, if_neg hxb, List.filter_cons, hbq, ih, hx]
      · simp only [List.orderedInsert, if_neg hxb, List.filter_cons, ih, if_neg hx]

theorem pySort_cons {α : Type} [LinearOrderedField α] [FloorRing α]
    (x : DictT α) (l : List (DictT α)) :
    pySort (x :: l) = List.orderedInsert keyLe x (pySort l) := rfl

theorem filter_pySort {α : Type} [LinearOrderedField α] [FloorRing α]
    (q : α) (l : List (DictT α)) :
    (pySort l).filter (fun r => decide (keyOf r = q))
      = l.filter (fun r => decide (keyOf r = q)) := by
  induction l with
  | nil => rfl
  | cons x l ih =>
    rw [pySort_cons, filter_orderedInsert]
    by_cases hx : keyOf x = q <;> simp [List.filter_cons, hx, ih]

theorem pySort_sorted {α : Type} [LinearOrderedField α] [FloorRing α]
    (l : List (DictT α)) : List.Sorted keyLe (pySort l) :=
  List.sorted_insertionSort keyLe l

theorem recOutD_eq {α : Type} [LinearOrderedField α] [FloorRing α]
    (dist : α → α → α → α → α) (uLat uLon radius : α)
    (col : Except String (List (Doc α))) :
    recOutD dist uLat uLon radius col = pySort (recSurvivors dist uLat uLon radius col) := by
  cases col with
  | error e => rfl
  | ok docs =>
    simp only [recOutD, getNearbyRec, recSurvivors]
    cases processList (processDocRec dist uLat uLon radius) docs <;> rfl

theorem mainOut_eq {α : Type} [LinearOrderedField α] [FloorRing α]
    (cosrF : α → α) (dist : α → α → α → α → α) (uLat uLon radius : α)
    (docs : List (Doc α)) :
    getNearbyMain cosrF dist uLat uLon radius (Except.ok docs)
      = (pySort (mainSurvivors cosrF dist uLat uLon radius docs)).take 50 := by
  simp only [getNearbyMain, mainSurvivors]
  cases processList (processDocMain dist uLat uLon radius (radius / (111 * cosrF uLat)))
    ((docs.filter (latInBox uLat (radius / 111))).take 100) <;> rfl

/-- C5: in both variants the output is sorted by non-decreasing
distance key, and the sort is stable: for any fixed distance value,
the results carrying it appear in their loop (input) order — exactly
the input run for the uncapped variant, a prefix of it for the capped
`main.py` variant. -/
theorem c5_thm {α : Type} [LinearOrderedField α] [FloorRing α]
    (cosrF : α → α) (dist : α → α → α → α → α) (uLat uLon radius : α)
    (docs : List (Doc α)) (col : Except String (List (Doc α))) :
    List.Sorted keyLe (getNearbyMain cosrF dist uLat uLon radius (Except.ok docs))
    ∧ List.Sorted keyLe (recOutD dist uLat uLon radius col)
    ∧ (∀ q : α, (getNearbyMain cosrF dist uLat uLon radius (Except.ok docs)).filter
          (fun r => decide (keyOf r = q))
        <+: (mainSurvivors cosrF dist uLat uLon radius docs).filter
          (fun r => decide (keyOf r = q)))
    ∧ (∀ q : α, (recOutD dist uLat uLon radius col).filter (fun r => decide (keyOf r = q))
        = (recSurvivors dist uLat uLon radius col).filter (fun r => decide (keyOf r = q))) := by
  refine ⟨?_, ?_, ?_, ?_⟩
  · rw [mainOut_eq]
    exact (pySort_sorted _).sublist (List.take_sublist _ _)
  · rw [recOutD_eq]
    exact pySort_sorted _
  · intro q
    rw [mainOut_eq]
    have h1 := isPre_filter (fun r => decide (keyOf r = q))
      (takePre 50 (pySort (mainSurvivors cosrF dist uLat uLon radius docs)))
    rwa [filter_pySort] at h1
  · intro q
    rw [recOutD_eq]
    exact filter_pySort q _

/-! ### Rounding lemmas -/

section RoundLemmas

variable {α : Type} [LinearOrderedField α] [FloorRing α]

theorem fract_half_floor {x : α} (hf : Int.fract x = 1 / 2) :
    x = (⌊x⌋ : α) + 1 / 2 := by
  have hd : x - (⌊x⌋ : α) = 1 / 2 := by
    unfold Int.fract at hf
    exact hf
  linarith

theorem pyRound_eq_round {x : α} (hf : Int.fract x ≠ 1 / 2) : pyRound x = round x := by
  unfold pyRound
  exact if_neg hf

theorem floor_add_half_of_half {x : α} (hf : Int.fract x = 1 / 2) :
    ⌊x + 1 / 2⌋ = ⌊x⌋ + 1 := by
  have hx := fract_half_floor hf
  have h2 : x + 1 / 2 = ((⌊x⌋ + 1 : ℤ) : α) := by
    push_cast
    linarith
  rw [h2, Int.floor_intCast]

theorem pyRound_half_eq {x : α} (hf : Int.fract x = 1 / 2) :
    pyRound x = ⌊x⌋ ∨ pyRound x = ⌊x⌋ + 1 := by
  have hx := fract_half_floor hf
  unfold pyRound
  rw [if_pos hf]
  rcases Int.even_or_odd ⌊x⌋ with ⟨m, hm⟩ | ⟨m, hm⟩
  · left
    have hx2 : x / 2 = ((m : ℤ) : α) + 1 / 4 := by
      rw [hx, hm]
      push_cast
      ring
    have hq : round ((1 : α) / 4) = 0 := by
      rw [round_eq]
      apply Int.floor_eq_zero_iff.mpr
      constructor <;> norm_num
    rw [hx2, round_int_add, hq, hm]
    ring
  · right
    have hx2 : x / 2 = ((m : ℤ) : α) + 3 / 4 := by
      rw [hx, hm]
      push_cast
      ring
    have hq : round ((3 : α) / 4) = 1 := by
      rw [round_eq]
      apply Int.floor_eq_iff.mpr
      constructor <;> norm_num
    rw [hx2, round_int_add, hq, hm]
    ring

theorem pyRound_le_floor (x : α) : pyRound x ≤ ⌊x + 1 / 2⌋ := by
  by_cases hf : Int.fract x = 1 / 2
  · rw [floor_add_half_of_half hf]
    rcases pyRound_half_eq hf with h | h <;> omega
  · rw [pyRound_eq_round hf, round_eq]

theorem floor_le_pyRound (x : α) : ⌊x⌋ ≤ pyRound x := by
  by_cases hf : Int.fract x = 1 / 2
  · rcases pyRound_half_eq hf with h | h <;> omega
  · rw [pyRound_eq_round hf, round_eq]
    exact Int.floor_mono (by linarith)

theorem pyRound_mono {x y : α} (hxy : x ≤ y) : pyRound x ≤ pyRound y := by
  rcases eq_or_lt_of_le hxy with rfl | hlt
  · exact le_refl _
  by_cases hfx : Int.fract x = 1 / 2 <;> by_cases hfy : Int.fract y = 1 / 2
  · -- both halves
    have hx := fract_half_floor hfx
    have hy := fract_half_floor hfy
    have hfl : ⌊x⌋ < ⌊y⌋ := by
      by_contra hc
      push_neg at hc
      have hcc : (⌊y⌋ : α) ≤ (⌊x⌋ : α) := Int.cast_le.mpr hc
      rw [hx, hy] at hlt
      linarith
    rcases pyRound_half_eq hfx with h1 | h1 <;> rcases pyRound_half_eq hfy with h2 | h2 <;> omega
  · -- x half, y not
    have h1 : pyRound x ≤ ⌊x + 1 / 2⌋ := pyRound_le_floor x
    have h2 : ⌊x + 1 / 2⌋ ≤ ⌊y + 1 / 2⌋ := Int.floor_mono (by linarith)
    rw [pyRound_eq_round hfy, round_eq]
    omega
  · -- y half, x not
    have hy := fract_half_floor hfy
    have h3 : ⌊x + 1 / 2⌋ ≤ ⌊y⌋ := by
      by_contra hc
      push_neg at hc
      have h4 : ⌊y⌋ + 1 ≤ ⌊x + 1 / 2⌋ := by omega
      have h5 : ((⌊y⌋ + 1 : ℤ) : α) ≤ x + 1 / 2 := le_trans (Int.cast_le.mpr h4) (Int.floor_le _)
      push_cast at h5
      rw [hy] at hlt
      linarith
    have h4 := floor_le_pyRound y
    rw [pyRound_eq_round hfx, round_eq]
    omega
  · -- neither half
    rw [pyRound_eq_round hfx, pyRound_eq_round hfy, round_eq, round_eq]
    exact Int.floor_mono (by linarith)

theorem pyRound_le (x : α) : ((pyRound x : ℤ) : α) ≤ x + 1 / 2 :=
  le_trans (Int.cast_le.mpr (pyRound_le_floor x)) (Int.floor_le _)

theorem round2_le (x : α) : round2 x ≤ x + 1 / 200 := by
  unfold round2
  have h := pyRound_le (x * 100)
  rw [div_le_iff₀ (by norm_num : (0 : α) < 100)]
  linarith

theorem round2_mono {x y : α} (h : x ≤ y) : round2 x ≤ round2 y := by
  unfold round2
  have hc : ((pyRound (x * 100) : ℤ) : α) ≤ ((pyRound (y * 100) : ℤ) : α) :=
    Int.cast_le.mpr (pyRound_mono (by linarith))
  linarith

theorem round2_zero : round2 (0 : α) = 0 := by
  unfold round2 pyRound
  norm_num

end RoundLemmas

/-! ### Per-document characterisations -/

section DocLemmas

variable {α : Type} [LinearOrderedField α] [FloorRing α]

/-- The result the `main.py` variant produces for a well-formed
document (junk `[]` on a malformed one; only used under
well-formedness hypotheses). -/
def mainResultOf (dist : α → α → α → α → α) (uLat uLon : α) (d : Doc α) : DictT α :=
  match dlookup "location" d.data with
  | some (Val.obj fs) =>
    match dlookup "latitude" fs, dlookup "longitude" fs with
    | some (Val.num la), some (Val.num lo) =>
      mkResultMain d.id d.data (Val.obj fs) (dist uLat uLon la lo)
    | _, _ => []
  | _ => []

/-- The computed distance of a well-formed document (junk `0` on a
malformed one). -/
def distOfDoc (dist : α → α → α → α → α) (uLat uLon : α) (d : Doc α) : α :=
  match coordsOf d with
  | some (la, lo) => dist uLat uLon la lo
  | none => 0

/-- A candidate of the 60-candidates scenario: well-formed coordinates,
inside both bounding-box ranges, within the radius, and carrying no
`distance` key of its own. -/
def scenarioDoc (cosrF : α → α) (dist : α → α → α → α → α)
    (uLat uLon radius : α) (d : Doc α) : Prop :=
  ∃ fs la lo, dlookup "location" d.data = some (Val.obj fs)
    ∧ dlookup "latitude" fs = some (Val.num la)
    ∧ dlookup "longitude" fs = some (Val.num lo)
    ∧ uLat - radius / 111 ≤ la ∧ la ≤ uLat + radius / 111
    ∧ |lo - uLon| ≤ radius / (111 * cosrF uLat)
    ∧ dist uLat uLon la lo ≤ radius
    ∧ dlookup "distance" d.data = none

theorem exOkSome {ε β : Type} {r : β} (h : (Except.ok none : Except ε (Option β)) = Except.ok (some r)) : False :=
  Option.noConfusion (Except.ok.inj h)

theorem exErrOk {ε β : Type} {e : ε} {x : β} (h : (Except.error e : Except ε β) = Except.ok x) : False :=
  Except.noConfusion h

theorem coordsOf_lookups {d : Doc α} {fs : DictT α} {la lo : α}
    (hloc : dlookup "location" d.data = some (Val.obj fs))
    (hla : dlookup "latitude" fs = some (Val.num la))
    (hlo : dlookup "longitude" fs = some (Val.num lo)) :
    coordsOf d = some (la, lo) := by
  simp only [coordsOf, hloc, hla, hlo]

theorem processDocMain_of_wf {dist : α → α → α → α → α}
    {uLat uLon radius lonRange : α} {d : Doc α} {fs : DictT α} {la lo : α}
    (hloc : dlookup "location" d.data = some (Val.obj fs))
    (hla : dlookup "latitude" fs = some (Val.num la))
    (hlo : dlookup "longitude" fs = some (Val.num lo))
    (hbox : |lo - uLon| ≤ lonRange)
    (hrad : dist uLat uLon la lo ≤ radius) :
    processDocMain dist uLat uLon radius lonRange d
      = Except.ok (some (mkResultMain d.id d.data (Val.obj fs) (dist uLat uLon la lo))) := by
  simp only [processDocMain, hloc, hla, hlo]
  simp [isNoneVal, hbox, hrad]

theorem latInBox_of {uLat latRange : α} {d : Doc α} {fs : DictT α} {la : α}
    (hloc : dlookup "location" d.data = some (Val.obj fs))
    (hla : dlookup "latitude" fs = some (Val.num la))
    (h1 : uLat - latRange ≤ la) (h2 : la ≤ uLat + latRange) :
    latInBox uLat latRange d = true := by
  simp only [latInBox, hloc, hla]
  simp [h1, h2]

theorem mainResultOf_eq {dist : α → α → α → α → α} {uLat uLon : α}
    {d : Doc α} {fs : DictT α} {la lo : α}
    (hloc : dlookup "location" d.data = some (Val.obj fs))
    (hla : dlookup "latitude" fs = some (Val.num la))
    (hlo : dlookup "longitude" fs = some (Val.num lo)) :
    mainResultOf dist uLat uLon d
      = mkResultMain d.id d.data (Val.obj fs) (dist uLat uLon la lo) := by
  simp only [mainResultOf, hloc, hla, hlo]

theorem distOfDoc_eq {dist : α → α → α → α → α} {uLat uLon : α}
    {d : Doc α} {la lo : α} (h : coordsOf d = some (la, lo)) :
    distOfDoc dist uLat uLon d = dist uLat uLon la lo := by
  simp only [distOfDoc, h]

theorem dlookup_distance_mkResultMain (i : String) (data : DictT α)
    (locv : Val α) (dval : α) (h : dlookup "distance" data = none) :
    dlookup "distance" (mkResultMain i data locv dval)
      = some (Val.num (round2 dval)) := by
  unfold mkResultMain
  rw [dlookup_spreadInto_none _ _ _ h]
  unfold mkDict
  apply dlookup_spreadInto_some
  · exact (by decide : (["ngo_id", "ngoName", "distance", "location", "description",
      "contact", "logoUrl", "ngoRating"] : List String).Nodup)
  · simp [dlookup]

theorem keyOf_mkResultMain (i : String) (data : DictT α)
    (locv : Val α) (dval : α) (h : dlookup "distance" data = none) :
    keyOf (mkResultMain i data locv dval) = round2 dval := by
  unfold keyOf
  rw [dlookup_distance_mkResultMain i data locv dval h]

theorem dlookup_distance_mkResultRec (i : String) (data fs : DictT α)
    (la lo dval : α) :
    dlookup "distance" (mkResultRec i data fs la lo dval)
      = some (Val.num (round2 dval)) := by
  unfold mkResultRec mkDict
  apply dlookup_spreadInto_some
  · exact (by decide : (["ngo_id", "ngoName", "distance", "location", "description",
      "email", "phone", "logoUrl", "categories", "displayType", "district", "state",
      "isVerified", "mission", "vision"] : List String).Nodup)
  · simp [dlookup]

/-- Inversion: a document the `main.py` loop turns into a result has
numeric coordinates, passed the longitude box check, and its computed
distance is within the radius. -/
theorem processDocMain_ok_inv {dist : α → α → α → α → α}
    {uLat uLon radius lonRange : α} {d : Doc α} {r : DictT α}
    (h : processDocMain dist uLat uLon radius lonRange d = Except.ok (some r)) :
    ∃ fs la lo, dlookup "location" d.data = some (Val.obj fs)
      ∧ dlookup "latitude" fs = some (Val.num la)
      ∧ dlookup "longitude" fs = some (Val.num lo)
      ∧ |lo - uLon| ≤ lonRange
      ∧ dist uLat uLon la lo ≤ radius
      ∧ r = mkResultMain d.id d.data (Val.obj fs) (dist uLat uLon la lo) := by
  cases hloc : dlookup "location" d.data with
  | none =>
    simp only [processDocMain, hloc] at h
    exact (exOkSome h).elim
  | some v =>
    cases v with
    | obj fs =>
      simp only [processDocMain, hloc] at h
      by_cases hnone : (isNoneVal (dlookup "latitude" fs)
          || isNoneVal (dlookup "longitude" fs)) = true
      · rw [if_pos hnone] at h
        exact (exOkSome h).elim
      · rw [if_neg hnone] at h
        cases hlo : dlookup "longitude" fs with
        | none =>
          simp only [hlo] at h
          exact (exErrOk h).elim
        | some lov =>
          cases lov with
          | num lo =>
            simp only [hlo] at h
            by_cases hbox : |lo - uLon| ≤ lonRange
            · rw [if_pos hbox] at h
              cases hla : dlookup "latitude" fs with
              | none =>
                simp only [hla] at h
                exact (exErrOk h).elim
              | some lav =>
                cases lav with
                | num la =>
                  simp only [hla] at h
                  by_cases hrad : dist uLat uLon la lo ≤ radius
                  · rw [if_pos hrad] at h
                    refine ⟨fs, la, lo, rfl, hla, hlo, hbox, hrad, ?_⟩
                    exact (Option.some_inj.mp (Except.ok.inj h)).symm
                  · rw [if_neg hrad] at h
                    exact (exOkSome h).elim
                | null => simp only [hla] at h; exact (exErrOk h).elim
                | str s => simp only [hla] at h; exact (exErrOk h).elim
                | obj o => simp only [hla] at h; exact (exErrOk h).elim
                | arr a => simp only [hla] at h; exact (exErrOk h).elim
            · rw [if_neg hbox] at h
              exact (exOkSome h).elim
          | null => simp only [hlo] at h; exact (exErrOk h).elim
          | str s => simp only [hlo] at h; exact (exErrOk h).elim
          | obj o => simp only [hlo] at h; exact (exErrOk h).elim
          | arr a => simp only [hlo] at h; exact (exErrOk h).elim
    | null =>
      simp only [processDocMain, hloc] at h
      exact (exErrOk h).elim
    | str s =>
      simp only [processDocMain, hloc] at h
      exact (exErrOk h).elim
    | num q =>
      simp only [processDocMain, hloc] at h
      exact (exErrOk h).elim
    | arr a =>
      simp only [processDocMain, hloc] at h
      exact (exErrOk h).elim

/-- Inversion: a document the `recommendation.py` loop turns into a
result has numeric coordinates and its computed distance is within the
radius; the result is the fixed-schema dict whose distance field is the
rounded computed distance. -/
theorem processDocRec_ok_inv {dist : α → α → α → α → α}
    {uLat uLon radius : α} {d : Doc α} {r : DictT α}
    (h : processDocRec dist uLat uLon radius d = Except.ok (some r)) :
    ∃ fs la lo, dlookup "location" d.data = some (Val.obj fs)
      ∧ dlookup "latitude" fs = some (Val.num la)
      ∧ dlookup "longitude" fs = some (Val.num lo)
      ∧ dist uLat uLon la lo ≤ radius
      ∧ r = mkResultRec d.id d.data fs la lo (dist uLat uLon la lo) := by
  cases hloc : dlookup "location" d.data with
  | none =>
    simp only [processDocRec, hloc] at h
    exact (exOkSome h).elim
  | some v =>
    cases v with
    | obj fs =>
      simp only [processDocRec, hloc] at h
      by_cases hnone : (isNoneVal (dlookup "latitude" fs)
          || isNoneVal (dlookup "longitude" fs)) = true
      · rw [if_pos hnone] at h
        exact (exOkSome h).elim
      · rw [if_neg hnone] at h
        cases hla : dlookup "latitude" fs with
        | none =>
          simp only [hla] at h
          exact (exErrOk h).elim
        | some lav =>
          cases lav with
          | num la =>
            simp only [hla] at h
            cases hlo : dlookup "longitude" fs with
            | none =>
              simp only [hlo] at h
              exact (exErrOk h).elim
            | some lov =>
              cases lov with
              | num lo =>
                simp only [hlo] at h
                by_cases hrad : dist uLat uLon la lo ≤ radius
                · rw [if_pos hrad] at h
                  refine ⟨fs, la, lo, rfl, hla, hlo, hrad, ?_⟩
                  exact (Option.some_inj.mp (Except.ok.inj h)).symm
                · rw [if_neg hrad] at h
                  exact (exOkSome h).elim
              | null => simp only [hlo] at h; exact (exErrOk h).elim
              | str s => simp only [hlo] at h; exact (exErrOk h).elim
              | obj o => simp only [hlo] at h; exact (exErrOk h).elim
              | arr a => simp only [hlo] at h; exact (exErrOk h).elim
          | null => simp only [hla] at h; exact (exErrOk h).elim
          | str s => simp only [hla] at h; exact (exErrOk h).elim
          | obj o => simp only [hla] at h; exact (exErrOk h).elim
          | arr a => simp only [hla] at h; exact (exErrOk h).elim
    | null =>
      simp only [processDocRec, hloc] at h
      exact (exErrOk h).elim
    | str s =>
      simp only [processDocRec, hloc] at h
      exact (exErrOk h).elim
    | num q =>
      simp only [processDocRec, hloc] at h
      exact (exErrOk h).elim
    | arr a =>
      simp only [processDocRec, hloc] at h
      exact (exErrOk h).elim

/-- C1 (amended): the pre-filter admits no false positives — every
candidate the pre-filtered `main.py` loop keeps has numeric
coordinates, lies within the longitude box, and its computed distance
is within the radius; so the pre-filtered result set is contained in
the in-radius set of the baseline without the pre-filter.  (The reverse
containment of the original claim fails, see the counterexample.) -/
theorem c1_amended {dist : α → α → α → α → α} {uLat uLon radius lonRange : α}
    {d : Doc α} {r : DictT α}
    (h : processDocMain dist uLat uLon radius lonRange d = Except.ok (some r)) :
    ∃ la lo, coordsOf d = some (la, lo) ∧ |lo - uLon| ≤ lonRange
      ∧ dist uLat uLon la lo ≤ radius := by
  obtain ⟨fs, la, lo, hloc, hla, hlo, hbox, hrad, _⟩ := processDocMain_ok_inv h
  exact ⟨la, lo, coordsOf_lookups hloc hla hlo, hbox, hrad⟩

/-- Witness for C1 (amended) at a concrete input. -/
theorem c1_wit :
    (processDocMain qdist0 0 0 50 (50/111) okdoc
      = Except.ok (some (mkResultMain "a" okdoc.data
          (Val.obj [("latitude", Val.num 0), ("longitude", Val.num 0)]) (qdist0 0 0 0 0))))
    ∧ ∃ la lo, coordsOf (α := ℚ) okdoc = some (la, lo)
        ∧ |lo - (0:ℚ)| ≤ 50/111 ∧ qdist0 0 0 la lo ≤ 50 :=
  have h : processDocMain qdist0 0 0 50 (50/111) okdoc
      = Except.ok (some (mkResultMain "a" okdoc.data
          (Val.obj [("latitude", Val.num 0), ("longitude", Val.num 0)]) (qdist0 0 0 0 0))) :=
    processDocMain_of_wf (d := okdoc) rfl rfl rfl (by norm_num) (by norm_num [qdist0])
  ⟨h, c1_amended h⟩

/-- C6 (amended): every candidate the `recommendation.py` loop keeps
has its computed (unrounded) distance within the radius; the reported
`distance` field is that value rounded to 2 decimal places, and so may
exceed the radius by at most 0.005.  (The claim's bound `radius + 1e-6`
on the reported field fails, see the counterexample: in the `main.py`
variant the spread can even replace the field by arbitrary raw data.) -/
theorem c6_amended {dist : α → α → α → α → α} {uLat uLon radius : α}
    {d : Doc α} {r : DictT α}
    (h : processDocRec dist uLat uLon radius d = Except.ok (some r)) :
    ∃ la lo, coordsOf d = some (la, lo)
      ∧ dist uLat uLon la lo ≤ radius
      ∧ dlookup "distance" r = some (Val.num (round2 (dist uLat uLon la lo)))
      ∧ round2 (dist uLat uLon la lo) ≤ radius + 1/200 := by
  obtain ⟨fs, la, lo, hloc, hla, hlo, hrad, hr⟩ := processDocRec_ok_inv h
  refine ⟨la, lo, coordsOf_lookups hloc hla hlo, hrad, ?_, ?_⟩
  · rw [hr]
    exact dlookup_distance_mkResultRec _ _ _ _ _ _
  · exact le_trans (round2_le _) (by linarith)

/-- Witness for C6 (amended) at a concrete input. -/
theorem c6_wit :
    (processDocRec qdist0 0 0 50 okdoc
      = Except.ok (some (mkResultRec "a" okdoc.data
          [("latitude", Val.num 0), ("longitude", Val.num 0)] 0 0 (qdist0 0 0 0 0))))
    ∧ ∃ la lo, coordsOf (α := ℚ) okdoc = some (la, lo)
        ∧ qdist0 0 0 la lo ≤ 50
        ∧ dlookup "distance" (mkResultRec "a" okdoc.data
            [("latitude", Val.num 0), ("longitude", Val.num 0)] 0 0 (qdist0 0 0 0 0))
          = some (Val.num (round2 (qdist0 0 0 la lo)))
        ∧ round2 (qdist0 0 0 la lo) ≤ 50 + 1/200 :=
  have h : processDocRec qdist0 0 0 50 okdoc
      = Except.ok (some (mkResultRec "a" okdoc.data
          [("latitude", Val.num 0), ("longitude", Val.num 0)] 0 0 (qdist0 0 0 0 0))) := by
    simp only [processDocRec, okdoc, qdist0]
    norm_num [dlookup, isNoneVal]
  ⟨h, by
    obtain ⟨la, lo, h1, h2, h3, h4⟩ := c6_amended h
    exact ⟨la, lo, h1, h2, h3, h4⟩⟩

/-- C3 (amended): the `main.py` variant caps its output at 50 results
on every input; and in the scenario of at most 100 candidates, all
well-formed, inside both box ranges, within radius, at strictly
increasing distances (and carrying no raw `distance` key), its output
is exactly the results of the first — i.e. nearest — 50 candidates.
(The original claim also asserted the cap for the `recommendation.py`
variant, which has none: see the counterexample.) -/
theorem c3_amended (cosrF : α → α) (dist : α → α → α → α → α) (uLat uLon radius : α) :
    (∀ col, (getNearbyMain cosrF dist uLat uLon radius col).length ≤ 50)
    ∧ (∀ docs : List (Doc α),
        docs.length ≤ 100 →
        (∀ d ∈ docs, scenarioDoc cosrF dist uLat uLon radius d) →
        docs.Pairwise (fun d1 d2 =>
          distOfDoc dist uLat uLon d1 < distOfDoc dist uLat uLon d2) →
        getNearbyMain cosrF dist uLat uLon radius (Except.ok docs)
            = (docs.map (mainResultOf dist uLat uLon)).take 50
          ∧ (getNearbyMain cosrF dist uLat uLon radius (Except.ok docs)).length
            = min 50 docs.length) := by
  constructor
  · intro col
    cases col with
    | error e => simp [getNearbyMain]
    | ok docs =>
      rw [mainOut_eq]
      exact List.length_take_le _ _
  · intro docs hlen hsc hinc
    have hfilter : docs.filter (latInBox uLat (radius / 111)) = docs := by
      apply List.filter_eq_self.mpr
      intro d hd
      obtain ⟨fs, la, lo, hloc, hla, hlo, h1, h2, _, _, _⟩ := hsc d hd
      exact latInBox_of hloc hla h1 h2
    have hloop : processList
        (processDocMain dist uLat uLon radius (radius / (111 * cosrF uLat))) docs
        = Except.ok (docs.map (mainResultOf dist uLat uLon)) := by
      apply processList_map
      intro d hd
      obtain ⟨fs, la, lo, hloc, hla, hlo, _, _, hbox, hrad, _⟩ := hsc d hd
      rw [mainResultOf_eq hloc hla hlo]
      exact processDocMain_of_wf hloc hla hlo hbox hrad
    have hsurv : mainSurvivors cosrF dist uLat uLon radius docs
        = docs.map (mainResultOf dist uLat uLon) := by
      simp only [mainSurvivors, hfilter, List.take_of_length_le hlen, hloop]
    have hsorted : List.Sorted keyLe (docs.map (mainResultOf dist uLat uLon)) := by
      rw [List.Sorted, List.pairwise_map]
      refine hinc.imp_of_mem ?_
      intro a b ha hb hlt
      obtain ⟨fs, la, lo, hloc, hla, hlo, _, _, _, _, hdk⟩ := hsc a ha
      obtain ⟨fs2, la2, lo2, hloc2, hla2, hlo2, _, _, _, _, hdk2⟩ := hsc b hb
      have k1 : keyOf (mainResultOf dist uLat uLon a)
          = round2 (distOfDoc dist uLat uLon a) := by
        rw [mainResultOf_eq hloc hla hlo, keyOf_mkResultMain _ _ _ _ hdk,
          distOfDoc_eq (coordsOf_lookups hloc hla hlo)]
      have k2 : keyOf (mainResultOf dist uLat uLon b)
          = round2 (distOfDoc dist uLat uLon b) := by
        rw [mainResultOf_eq hloc2 hla2 hlo2, keyOf_mkResultMain _ _ _ _ hdk2,
          distOfDoc_eq (coordsOf_lookups hloc2 hla2 hlo2)]
      show keyLe _ _
      unfold keyLe
      rw [k1, k2]
      exact round2_mono (le_of_lt hlt)
    have hmain : getNearbyMain cosrF dist uLat uLon radius (Except.ok docs)
        = (docs.map (mainResultOf dist uLat uLon)).take 50 := by
      rw [mainOut_eq, hsurv]
      unfold pySort
      rw [hsorted.insertionSort_eq]
    refine ⟨hmain, ?_⟩
    rw [hmain, List.length_take, List.length_map]

end DocLemmas

/-- Constant-one model of `cos ∘ radians` over `ℚ`, for witnesses. -/
def qcos1 : ℚ → ℚ := fun _ => 1

/-- Longitude-as-distance model over `ℚ`, for witnesses. -/
def qdistLon : ℚ → ℚ → ℚ → ℚ → ℚ := fun _ _ _ lo => lo

/-- Concrete scenario candidate at longitude 0.001. -/
def dA : Doc ℚ :=
  ⟨"A", [("location", Val.obj [("latitude", Val.num 0), ("longitude", Val.num (1/1000))])]⟩

/-- Concrete scenario candidate at longitude 0.002. -/
def dB : Doc ℚ :=
  ⟨"B", [("location", Val.obj [("latitude", Val.num 0), ("longitude", Val.num (2/1000))])]⟩

/-- Witness for C3 (amended) at a concrete input. -/
theorem c3_wit :
    (([dA, dB] : List (Doc ℚ)).length ≤ 100
      ∧ (∀ d ∈ ([dA, dB] : List (Doc ℚ)), scenarioDoc qcos1 qdistLon 0 0 50 d)
      ∧ ([dA, dB] : List (Doc ℚ)).Pairwise (fun d1 d2 =>
          distOfDoc qdistLon 0 0 d1 < distOfDoc qdistLon 0 0 d2))
    ∧ (getNearbyMain qcos1 qdistLon 0 0 50 (Except.ok [dA, dB])
        = (([dA, dB] : List (Doc ℚ)).map (mainResultOf qdistLon 0 0)).take 50
      ∧ (getNearbyMain qcos1 qdistLon 0 0 50 (Except.ok [dA, dB])).length
        = min 50 ([dA, dB] : List (Doc ℚ)).length) := by
  have h1 : ([dA, dB] : List (Doc ℚ)).length ≤ 100 := by norm_num
  have h2 : ∀ d ∈ ([dA, dB] : List (Doc ℚ)), scenarioDoc qcos1 qdistLon 0 0 50 d := by
    intro d hd
    rcases List.mem_cons.mp hd with rfl | hd2
    · exact ⟨_, 0, 1/1000, rfl, rfl, rfl, by norm_num, by norm_num,
        by norm_num [qcos1, abs_le], by norm_num [qdistLon], rfl⟩
    · rcases List.mem_cons.mp hd2 with rfl | hd3
      · exact ⟨_, 0, 2/1000, rfl, rfl, rfl, by norm_num, by norm_num,
          by norm_num [qcos1, abs_le], by norm_num [qdistLon], rfl⟩
      · cases hd3
  have h3 : ([dA, dB] : List (Doc ℚ)).Pairwise (fun d1 d2 =>
      distOfDoc qdistLon 0 0 d1 < distOfDoc qdistLon 0 0 d2) := by
    refine List.pairwise_cons.mpr ⟨?_, List.pairwise_singleton _ _⟩
    intro b hb
    rcases List.mem_cons.mp hb with rfl | hb2
    · simp [distOfDoc, coordsOf, dA, dB, dlookup, qdistLon]
      norm_num
    · cases hb2
  exact ⟨⟨h1, h2, h3⟩, (c3_amended qcos1 qdistLon 0 0 50).2 [dA, dB] h1 h2 h3⟩

/-- C4 (amended): in the `recommendation.py` variant the identifier is
the candidate's `ngoId` field when present and the document key
otherwise, and the name falls back to `"Unknown"`; but that variant
drops all fields outside its fixed schema.  In the `main.py` variant
the identifier is always the document key (an `ngoId` field does not
replace it — it only rides along under its own key), while all raw
candidate fields do pass through (overwriting computed fields of the
same name). -/
theorem c4_amended {α : Type} [LinearOrderedField α] [FloorRing α] :
    (∀ (i : String) (data fs : DictT α) (la lo dval : α),
        dlookup "ngo_id" (mkResultRec i data fs la lo dval)
          = some (dget data "ngoId" (Val.str i))
        ∧ dlookup "ngoName" (mkResultRec i data fs la lo dval)
          = some (dget data "ngoName" (Val.str "Unknown")))
    ∧ (∀ (i : String) (data : DictT α) (locv : Val α) (dval : α),
        dlookup "ngo_id" data = none →
          dlookup "ngo_id" (mkResultMain i data locv dval) = some (Val.str i))
    ∧ (∀ (i : String) (data : DictT α) (locv : Val α) (dval : α) (k : String) (v : Val α),
        (data.map Prod.fst).Nodup → dlookup k data = some v →
          dlookup k (mkResultMain i data locv dval) = some v) := by
  refine ⟨?_, ?_, ?_⟩
  · intro i data fs la lo dval
    constructor
    · unfold mkResultRec mkDict
      apply dlookup_spreadInto_some
      · exact (by decide : (["ngo_id", "ngoName", "distance", "location", "description",
          "email", "phone", "logoUrl", "categories", "displayType", "district", "state",
          "isVerified", "mission", "vision"] : List String).Nodup)
      · simp [dlookup]
    · unfold mkResultRec mkDict
      apply dlookup_spreadInto_some
      · exact (by decide : (["ngo_id", "ngoName", "distance", "location", "description",
          "email", "phone", "logoUrl", "categories", "displayType", "district", "state",
          "isVerified", "mission", "vision"] : List String).Nodup)
      · simp [dlookup]
  · intro i data locv dval h
    unfold mkResultMain
    rw [dlookup_spreadInto_none _ _ _ h]
    unfold mkDict
    apply dlookup_spreadInto_some
    · exact (by decide : (["ngo_id", "ngoName", "distance", "location", "description",
        "contact", "logoUrl", "ngoRating"] : List String).Nodup)
    · simp [dlookup]
  · intro i data locv dval k v hnd hk
    exact dlookup_spreadInto_some _ hnd hk

/-- Witness for C4 (amended) at concrete inputs. -/
theorem c4_wit :
    (dlookup "ngo_id" ([("ngoId", Val.str "X")] : DictT ℚ) = none
      ∧ dlookup "ngo_id" (mkResultMain "k" [("ngoId", Val.str "X")] Val.null (0:ℚ))
          = some (Val.str "k"))
    ∧ ((([("extra", Val.str "E")] : DictT ℚ).map Prod.fst).Nodup
      ∧ dlookup "extra" ([("extra", Val.str "E")] : DictT ℚ) = some (Val.str "E")
      ∧ dlookup "extra" (mkResultMain "k" [("extra", Val.str "E")] Val.null (0:ℚ))
          = some (Val.str "E"))
    ∧ dlookup "ngo_id" (mkResultRec "k" [("ngoId", Val.str "X")] [] (0:ℚ) 0 0)
        = some (dget [("ngoId", Val.str "X")] "ngoId" (Val.str "k")) :=
  ⟨⟨rfl, (c4_amended (α := ℚ)).2.1 "k" [("ngoId", Val.str "X")] Val.null 0 rfl⟩,
   ⟨by decide, rfl,
    (c4_amended (α := ℚ)).2.2 "k" [("extra", Val.str "E")] Val.null 0 "extra"
      (Val.str "E") (by decide) rfl⟩,
   ((c4_amended (α := ℚ)).1 "k" [("ngoId", Val.str "X")] [] 0 0 0).1⟩

/-! ### Single-document and replicated-document evaluations -/

section EvalLemmas

variable {α : Type} [LinearOrderedField α] [FloorRing α]

theorem processDocRec_of_wf {dist : α → α → α → α → α}
    {uLat uLon radius : α} {d : Doc α} {fs : DictT α} {la lo : α}
    (hloc : dlookup "location" d.data = some (Val.obj fs))
    (hla : dlookup "latitude" fs = some (Val.num la))
    (hlo : dlookup "longitude" fs = some (Val.num lo))
    (hrad : dist uLat uLon la lo ≤ radius) :
    processDocRec dist uLat uLon radius d
      = Except.ok (some (mkResultRec d.id d.data fs la lo (dist uLat uLon la lo))) := by
  simp only [processDocRec, hloc, hla, hlo]
  simp [isNoneVal, hrad]

theorem processDocMain_outbox {dist : α → α → α → α → α}
    {uLat uLon radius lonRange : α} {d : Doc α} {fs : DictT α} {la lo : α}
    (hloc : dlookup "location" d.data = some (Val.obj fs))
    (hla : dlookup "latitude" fs = some (Val.num la))
    (hlo : dlookup "longitude" fs = some (Val.num lo))
    (hbox : ¬(|lo - uLon| ≤ lonRange)) :
    processDocMain dist uLat uLon radius lonRange d = Except.ok none := by
  simp only [processDocMain, hloc, hla, hlo]
  simp [isNoneVal, hbox]

theorem getNearbyMain_single {cosrF : α → α} {dist : α → α → α → α → α}
    {uLat uLon radius : α} {d : Doc α} {fs : DictT α} {la lo : α}
    (hloc : dlookup "location" d.data = some (Val.obj fs))
    (hla : dlookup "latitude" fs = some (Val.num la))
    (hlo : dlookup "longitude" fs = some (Val.num lo))
    (hlat1 : uLat - radius / 111 ≤ la) (hlat2 : la ≤ uLat + radius / 111)
    (hbox : |lo - uLon| ≤ radius / (111 * cosrF uLat))
    (hrad : dist uLat uLon la lo ≤ radius) :
    getNearbyMain cosrF dist uLat uLon radius (Except.ok [d])
      = [mkResultMain d.id d.data (Val.obj fs) (dist uLat uLon la lo)] := by
  rw [mainOut_eq]
  have hfil : ([d] : List (Doc α)).filter (latInBox uLat (radius / 111)) = [d] := by
    simp [List.filter, latInBox_of hloc hla hlat1 hlat2]
  have hs : mainSurvivors cosrF dist uLat uLon radius [d]
      = [mkResultMain d.id d.data (Val.obj fs) (dist uLat uLon la lo)] := by
    simp only [mainSurvivors, hfil, List.take_of_length_le (by norm_num : ([d] : List (Doc α)).length ≤ 100),
      processList, processDocMain_of_wf hloc hla hlo hbox hrad]
  rw [hs]
  simp [pySort, List.insertionSort, List.orderedInsert]

theorem getNearbyMain_single_out {cosrF : α → α} {dist : α → α → α → α → α}
    {uLat uLon radius : α} {d : Doc α} {fs : DictT α} {la lo : α}
    (hloc : dlookup "location" d.data = some (Val.obj fs))
    (hla : dlookup "latitude" fs = some (Val.num la))
    (hlo : dlookup "longitude" fs = some (Val.num lo))
    (hbox : ¬(|lo - uLon| ≤ radius / (111 * cosrF uLat))) :
    getNearbyMain cosrF dist uLat uLon radius (Except.ok [d]) = [] := by
  rw [mainOut_eq]
  have hs : mainSurvivors cosrF dist uLat uLon radius [d] = [] := by
    by_cases hpd : latInBox uLat (radius / 111) d = true
    · have hfil : ([d] : List (Doc α)).filter (latInBox uLat (radius / 111)) = [d] := by
        simp [List.filter, hpd]
      simp only [mainSurvivors, hfil,
        List.take_of_length_le (by norm_num : ([d] : List (Doc α)).length ≤ 100),
        processList, processDocMain_outbox hloc hla hlo hbox]
    · have hfil : ([d] : List (Doc α)).filter (latInBox uLat (radius / 111)) = [] := by
        simp [List.filter, hpd]
      simp only [mainSurvivors, hfil, List.take_nil, processList]
  rw [hs]
  rfl

theorem recOutD_single {dist : α → α → α → α → α}
    {uLat uLon radius : α} {d : Doc α} {fs : DictT α} {la lo : α}
    (hloc : dlookup "location" d.data = some (Val.obj fs))
    (hla : dlookup "latitude" fs = some (Val.num la))
    (hlo : dlookup "longitude" fs = some (Val.num lo))
    (hrad : dist uLat uLon la lo ≤ radius) :
    recOutD dist uLat uLon radius (Except.ok [d])
      = [mkResultRec d.id d.data fs la lo (dist uLat uLon la lo)] := by
  rw [recOutD_eq]
  have hs : recSurvivors dist uLat uLon radius (Except.ok [d])
      = [mkResultRec d.id d.data fs la lo (dist uLat uLon la lo)] := by
    simp only [recSurvivors, processList, processDocRec_of_wf hloc hla hlo hrad]
  rw [hs]
  simp [pySort, List.insertionSort, List.orderedInsert]

theorem processList_replicate {ε : Type} {f : Doc α → Except ε (Option (DictT α))}
    {d : Doc α} {r : DictT α} (h : f d = Except.ok (some r)) (n : ℕ) :
    processList f (List.replicate n d) = Except.ok (List.replicate n r) := by
  induction n with
  | zero => rfl
  | succ n ih => simp only [List.replicate_succ, processList, h, ih]

theorem pySort_replicate (r : DictT α) (n : ℕ) :
    pySort (List.replicate n r) = List.replicate n r := by
  have hsorted : List.Sorted keyLe (List.replicate n r) :=
    List.pairwise_replicate.mpr (Or.inr (le_refl (keyOf r)))
  unfold pySort
  exact hsorted.insertionSort_eq

end EvalLemmas

/-! ### Real-analysis facts about the actual distance function -/

section RealFacts

open Real

theorem arctan_le_self {t : ℝ} (h : 0 ≤ t) : arctan t ≤ t := by
  rcases eq_or_lt_of_le h with rfl | hpos
  · simp
  · have hy1 : 0 < arctan t := by
      have h2 := arctan_strictMono hpos
      rwa [arctan_zero] at h2
    have hy2 : arctan t < π / 2 := arctan_lt_pi_div_two t
    have h3 := lt_tan hy1 hy2
    rw [tan_arctan] at h3
    exact le_of_lt h3

/-- Modelled from the spec: the haversine reference of §4.1 step 2 —
convert both coordinates to radians, `dlat = lat2-lat1`,
`dlon = lon2-lon1`, `a = sin²(dlat/2) + cos(lat1)·cos(lat2)·sin²(dlon/2)`,
`c = 2·atan2(√a, √(1-a))`, `distance = c·6371` kilometers. -/
noncomputable def haversineSpec (lat1 lon1 lat2 lon2 : ℝ) : ℝ :=
  let rlat1 := lat1 * (π / 180)
  let rlat2 := lat2 * (π / 180)
  let dlat := rlat2 - rlat1
  let dlon := lon2 * (π / 180) - lon1 * (π / 180)
  let a := sin (dlat / 2) ^ 2 + cos rlat1 * cos rlat2 * sin (dlon / 2) ^ 2
  2 * atan2 (sqrt a) (sqrt (1 - a)) * 6371

theorem haversine_self (lat lon : ℝ) : haversine_distance lat lon lat lon = 0 := by
  simp only [haversine_distance, deg2rad]
  norm_num [atan2, arctan_zero]

theorem cosr_zero : cosr 0 = 1 := by
  simp [cosr, deg2rad]

/-- A candidate located exactly at the given coordinates. -/
def docAt (lat lon : ℝ) : Doc ℝ :=
  ⟨"ngo1", [("location", Val.obj [("latitude", Val.num lat), ("longitude", Val.num lon)])]⟩

/-- C8 (amended): the distance function of both variants is exactly the
spec's haversine reference, and the `distance` field the loop writes
into a result is the computed value rounded to 2 decimal places — for
the `recommendation.py` schema unconditionally, for the `main.py`
schema whenever the raw record does not carry its own `distance` key
(which would overwrite it, see the counterexample). -/
theorem c8_amended :
    (∀ lat1 lon1 lat2 lon2 : ℝ,
        haversine_distance lat1 lon1 lat2 lon2 = haversineSpec lat1 lon1 lat2 lon2)
    ∧ (∀ (i : String) (data fs : DictT ℝ) (la lo dval : ℝ),
        dlookup "distance" (mkResultRec i data fs la lo dval)
          = some (Val.num (round2 dval)))
    ∧ (∀ (i : String) (data : DictT ℝ) (locv : Val ℝ) (dval : ℝ),
        dlookup "distance" data = none →
          dlookup "distance" (mkResultMain i data locv dval)
            = some (Val.num (round2 dval))) := by
  refine ⟨?_, ?_, ?_⟩
  · intro lat1 lon1 lat2 lon2
    rfl
  · exact fun i data fs la lo dval => dlookup_distance_mkResultRec i data fs la lo dval
  · exact fun i data locv dval h => dlookup_distance_mkResultMain i data locv dval h

/-- Witness for C8 (amended) at a concrete input. -/
theorem c8_wit :
    dlookup "distance" ([] : DictT ℝ) = none
    ∧ dlookup "distance" (mkResultMain "k" [] Val.null (0:ℝ))
        = some (Val.num (round2 (0:ℝ))) :=
  ⟨rfl, c8_amended.2.2 "k" [] Val.null 0 rfl⟩

/-- C9: a candidate at exactly the user's coordinates has computed
distance exactly 0, and `findNearby(lat, lon, 0, [record at (lat,lon)])`
(the `main.py` variant with radius 0) returns exactly that one record,
with reported distance exactly 0. -/
theorem c9_thm (lat lon : ℝ) :
    haversine_distance lat lon lat lon = 0
    ∧ get_nearby_ngos_main lat lon 0 (Except.ok [docAt lat lon])
        = [mkResultMain "ngo1" (docAt lat lon).data
            (Val.obj [("latitude", Val.num lat), ("longitude", Val.num lon)]) 0]
    ∧ dlookup "distance" (mkResultMain "ngo1" (docAt lat lon).data
        (Val.obj [("latitude", Val.num lat), ("longitude", Val.num lon)]) 0)
      = some (Val.num 0) := by
  have hs := haversine_self lat lon
  refine ⟨hs, ?_, ?_⟩
  · have h : getNearbyMain cosr haversine_distance lat lon 0 (Except.ok [docAt lat lon])
        = [mkResultMain "ngo1" (docAt lat lon).data
            (Val.obj [("latitude", Val.num lat), ("longitude", Val.num lon)])
            (haversine_distance lat lon lat lon)] :=
      getNearbyMain_single rfl rfl rfl (by norm_num) (by norm_num) (by simp) (by rw [hs])
    rw [hs] at h
    exact h
  · have h := dlookup_distance_mkResultMain (α := ℝ) "ngo1" (docAt lat lon).data
      (Val.obj [("latitude", Val.num lat), ("longitude", Val.num lon)]) 0 rfl
    rwa [round2_zero] at h

/-! #### Numeric bounds for the high-latitude counterexample -/

theorem pi360_pos : (0:ℝ) < π / 360 := by linarith [pi_gt_d6]

theorem pi360_lt : π / 360 < 0.0087267 := by linarith [pi_lt_d6]

theorem pi360_gt : (0.0087266:ℝ) < π / 360 := by linarith [pi_gt_d6]

theorem sin_pi360_ub : sin (π / 360) < 0.0087267 :=
  lt_trans (sin_lt pi360_pos) pi360_lt

theorem sin_pi360_lb : (0.0087264:ℝ) < sin (π / 360) := by
  have h := sin_gt_sub_cube pi360_pos (le_of_lt (lt_trans pi360_lt (by norm_num)))
  have hub := pi360_lt
  have hlb := pi360_gt
  have h2 : (π / 360) ^ 2 < 0.00008 := by nlinarith [pi360_pos]
  have h3 : (π / 360) ^ 3 < 0.0000007 := by nlinarith [pi360_pos, h2]
  linarith

theorem sin_pi360_nonneg : 0 ≤ sin (π / 360) :=
  sin_nonneg_of_nonneg_of_le_pi (le_of_lt pi360_pos) (by linarith [pi_gt_d6])

theorem cos895_eq : cos ((89.5:ℝ) * (π / 180)) = sin (π / 360) := by
  rw [show (89.5:ℝ) * (π / 180) = π / 2 - π / 360 by ring]
  exact cos_pi_div_two_sub _

theorem x1390_lb : (0.4537855:ℝ) ≤ 13 * π / 90 := by linarith [pi_gt_d6]

theorem x1390_ub : (13:ℝ) * π / 90 ≤ 0.4537857 := by linarith [pi_lt_d6]

theorem sin1390_nonneg : 0 ≤ sin (13 * π / 90) :=
  sin_nonneg_of_nonneg_of_le_pi (by linarith [pi_gt_d6]) (by linarith [pi_gt_d6])

theorem sin1390_ub : sin (13 * π / 90) ≤ 0.4449 := by
  have hx1 := x1390_lb
  have hx2 := x1390_ub
  have hxpos : (0:ℝ) < 13 * π / 90 := by linarith
  have habs : |13 * π / 90| ≤ 1 := by
    rw [abs_of_pos hxpos]
    linarith
  have hb := sin_bound habs
  have h5 : sin (13 * π / 90) - (13 * π / 90 - (13 * π / 90) ^ 3 / 6)
      ≤ |13 * π / 90| ^ 4 * (5 / 96) := le_trans (le_abs_self _) hb
  rw [abs_of_pos hxpos] at h5
  have h2l : (0.2059:ℝ) ≤ (13 * π / 90) ^ 2 := by nlinarith
  have h3l : (0.0934:ℝ) ≤ (13 * π / 90) ^ 3 := by nlinarith
  have h2u : (13 * π / 90) ^ 2 ≤ 0.206 := by nlinarith
  have h4u : (13 * π / 90) ^ 4 ≤ 0.0425 := by nlinarith [h2u, sq_nonneg (13 * π / 90)]
  linarith

/-- Same-latitude evaluation of the haversine: the central-angle term
collapses to `2·arctan(u/√(1-u²))` with `u = cos(lat)·sin(dlon/2)` (in
radians). -/
theorem haversine_eval (lat lon1 lon2 u : ℝ)
    (hu_def : u = cos (lat * (π / 180)) * sin ((lon2 * (π / 180) - lon1 * (π / 180)) / 2))
    (hcos : 0 ≤ cos (lat * (π / 180)))
    (hsin : 0 ≤ sin ((lon2 * (π / 180) - lon1 * (π / 180)) / 2))
    (hu : u < 1) :
    haversine_distance lat lon1 lat lon2
      = 2 * arctan (u / sqrt (1 - u ^ 2)) * 6371 := by
  subst hu_def
  simp only [haversine_distance, deg2rad]
  have ha : sin ((lat * (π / 180) - lat * (π / 180)) / 2) ^ 2
      + cos (lat * (π / 180)) * cos (lat * (π / 180))
        * sin ((lon2 * (π / 180) - lon1 * (π / 180)) / 2) ^ 2
      = (cos (lat * (π / 180)) * sin ((lon2 * (π / 180) - lon1 * (π / 180)) / 2)) ^ 2 := by
    rw [sub_self, zero_div, Real.sin_zero]
    ring
  rw [ha, Real.sqrt_sq (mul_nonneg hcos hsin)]
  have hpos : 0 < sqrt (1 - (cos (lat * (π / 180))
      * sin ((lon2 * (π / 180) - lon1 * (π / 180)) / 2)) ^ 2) := by
    apply sqrt_pos.mpr
    nlinarith [mul_nonneg hcos hsin]
  unfold atan2
  rw [if_pos hpos]

theorem c1_dist_le : haversine_distance 89.5 0 89.5 52 ≤ 50 := by
  have harg : ((52:ℝ) * (π / 180) - 0 * (π / 180)) / 2 = 13 * π / 90 := by ring
  have hcos : 0 ≤ cos ((89.5:ℝ) * (π / 180)) := by
    rw [cos895_eq]
    exact sin_pi360_nonneg
  have hsin : 0 ≤ sin (((52:ℝ) * (π / 180) - 0 * (π / 180)) / 2) := by
    rw [harg]
    exact sin1390_nonneg
  have hu_eq : cos ((89.5:ℝ) * (π / 180)) * sin (((52:ℝ) * (π / 180) - 0 * (π / 180)) / 2)
      = sin (π / 360) * sin (13 * π / 90) := by
    rw [cos895_eq, harg]
  have hu_ub : cos ((89.5:ℝ) * (π / 180)) * sin (((52:ℝ) * (π / 180) - 0 * (π / 180)) / 2)
      ≤ 0.003883 := by
    rw [hu_eq]
    nlinarith [sin_pi360_ub, sin1390_ub, sin_pi360_nonneg, sin1390_nonneg]
  have hu_nonneg : 0 ≤ cos ((89.5:ℝ) * (π / 180))
      * sin (((52:ℝ) * (π / 180) - 0 * (π / 180)) / 2) := mul_nonneg hcos hsin
  rw [haversine_eval 89.5 0 52 _ rfl hcos hsin (by linarith)]
  set u := cos ((89.5:ℝ) * (π / 180)) * sin (((52:ℝ) * (π / 180) - 0 * (π / 180)) / 2) with hu_def
  have hsq : (0.999:ℝ) ≤ sqrt (1 - u ^ 2) := by
    rw [Real.le_sqrt (by norm_num) (by nlinarith)]
    nlinarith
  have hs_pos : (0:ℝ) < sqrt (1 - u ^ 2) := lt_of_lt_of_le (by norm_num) hsq
  have ht : u / sqrt (1 - u ^ 2) ≤ 0.00389 := by
    rw [div_le_iff₀ hs_pos]
    nlinarith
  have harc : arctan (u / sqrt (1 - u ^ 2)) ≤ 0.00389 :=
    le_trans (arctan_le_self (div_nonneg hu_nonneg (le_of_lt hs_pos))) ht
  have harc0 : 0 ≤ arctan (u / sqrt (1 - u ^ 2)) := by
    rw [← arctan_zero]
    exact arctan_strictMono.monotone (div_nonneg hu_nonneg (le_of_lt hs_pos))
  linarith

theorem c1_box_fail : ¬(|(52:ℝ) - 0| ≤ 50 / (111 * cosr 89.5)) := by
  rw [not_le, show |(52:ℝ) - 0| = 52 by norm_num]
  have hc : cosr 89.5 = sin (π / 360) := by
    unfold cosr deg2rad
    exact cos895_eq
  rw [hc]
  have hpos : (0:ℝ) < 111 * sin (π / 360) := by nlinarith [sin_pi360_lb]
  rw [div_lt_iff₀ hpos]
  nlinarith [sin_pi360_lb]

/-- C1 (counterexample): user at latitude 89.5, longitude 0, radius
50 km; one candidate at (89.5, 52).  Its true haversine distance is
within the radius (≈49.5 km), the baseline `recommendation.py` variant
returns it, but the pre-filtered `main.py` variant drops it: the
longitude range `radius/(111·cos(lat))` under-covers near the pole. -/
theorem c1_counterexample :
    get_nearby_ngos_main 89.5 0 50 (Except.ok [docAt 89.5 52]) = []
    ∧ recOutD haversine_distance 89.5 0 50 (Except.ok [docAt 89.5 52])
        = [mkResultRec "ngo1" (docAt 89.5 52).data
            [("latitude", Val.num 89.5), ("longitude", Val.num 52)] 89.5 52
            (haversine_distance 89.5 0 89.5 52)]
    ∧ haversine_distance 89.5 0 89.5 52 ≤ 50 := by
  refine ⟨?_, ?_, c1_dist_le⟩
  · exact getNearbyMain_single_out rfl rfl rfl c1_box_fail
  · exact recOutD_single rfl rfl rfl c1_dist_le

/-- The result the `recommendation.py` variant produces for a candidate
at the origin when the user is at the origin. -/
noncomputable def recR0 : DictT ℝ :=
  mkResultRec "ngo1" (docAt 0 0).data [("latitude", Val.num 0), ("longitude", Val.num 0)]
    0 0 (haversine_distance 0 0 0 0)

/-- C3 (counterexample): 51 candidates at the user's own location — all
within any nonnegative radius — make the `recommendation.py` variant
return 51 results: it has no cap of 50. -/
theorem c3_counterexample :
    get_nearby_ngos_rec 0 0 50 (Except.ok (List.replicate 51 (docAt 0 0)))
      = Except.ok (List.replicate 51 recR0)
    ∧ (List.replicate 51 recR0).length = 51 := by
  have hone : processDocRec haversine_distance 0 0 50 (docAt 0 0)
      = Except.ok (some recR0) :=
    processDocRec_of_wf rfl rfl rfl (by rw [haversine_self]; norm_num)
  have hrep := processList_replicate hone 51
  constructor
  · simp only [get_nearby_ngos_rec, getNearbyRec, hrep, pySort_replicate]
  · simp

/-- A candidate at the origin whose raw data carries its own
`distance` key with value 999. -/
def doc6 : Doc ℝ :=
  ⟨"n6", [("location", Val.obj [("latitude", Val.num 0), ("longitude", Val.num 0)]),
    ("distance", Val.num 999)]⟩

/-- C6 (counterexample): with the user at the origin and radius 50, the
candidate `doc6` survives (computed distance 0), but the result's
`distance` field is the raw 999 — far above `radius + 1e-6`. -/
theorem c6_counterexample :
    (get_nearby_ngos_main 0 0 50 (Except.ok [doc6])).length = 1
    ∧ dlookup "distance" ((get_nearby_ngos_main 0 0 50 (Except.ok [doc6])).headD [])
        = some (Val.num 999)
    ∧ ¬((999:ℝ) ≤ 50 + 1 / 1000000) := by
  have h : get_nearby_ngos_main 0 0 50 (Except.ok [doc6])
      = [mkResultMain "n6" doc6.data
          (Val.obj [("latitude", Val.num 0), ("longitude", Val.num 0)])
          (haversine_distance 0 0 0 0)] :=
    getNearbyMain_single rfl rfl rfl (by norm_num) (by norm_num)
      (by rw [cosr_zero]; norm_num) (by rw [haversine_self]; norm_num)
  refine ⟨by rw [h]; rfl, ?_, by norm_num⟩
  rw [h]
  show dlookup "distance" (mkResultMain "n6" doc6.data _ _) = some (Val.num 999)
  unfold mkResultMain
  apply dlookup_spreadInto_some
  · exact (by decide : (["location", "distance"] : List String).Nodup)
  · rfl

/-- A candidate at the origin whose raw data carries a `distance` key
with the in-radius value 7. -/
def doc8 : Doc ℝ :=
  ⟨"n8", [("location", Val.obj [("latitude", Val.num 0), ("longitude", Val.num 0)]),
    ("distance", Val.num 7)]⟩

/-- C8 (counterexample): the distance reported for `doc8` by the
`main.py` variant is the raw value 7, not the computed haversine value
rounded to 2 decimals (which is 0). -/
theorem c8_counterexample :
    dlookup "distance" ((get_nearby_ngos_main 0 0 50 (Except.ok [doc8])).headD [])
      = some (Val.num 7)
    ∧ round2 (haversine_distance 0 0 0 0) = 0
    ∧ (Val.num (7:ℝ)) ≠ (Val.num (0:ℝ)) := by
  have h : get_nearby_ngos_main 0 0 50 (Except.ok [doc8])
      = [mkResultMain "n8" doc8.data
          (Val.obj [("latitude", Val.num 0), ("longitude", Val.num 0)])
          (haversine_distance 0 0 0 0)] :=
    getNearbyMain_single rfl rfl rfl (by norm_num) (by norm_num)
      (by rw [cosr_zero]; norm_num) (by rw [haversine_self]; norm_num)
  refine ⟨?_, by rw [haversine_self]; exact round2_zero, ?_⟩
  · rw [h]
    show dlookup "distance" (mkResultMain "n8" doc8.data _ _) = some (Val.num 7)
    unfold mkResultMain
    apply dlookup_spreadInto_some
    · exact (by decide : (["location", "distance"] : List String).Nodup)
    · rfl
  · intro hc
    injection hc with h2
    norm_num at h2

/-- A candidate at the origin carrying an explicit `ngoId` field and an
extra pass-through field. -/
def doc4 : Doc ℝ :=
  ⟨"k1", [("location", Val.obj [("latitude", Val.num 0), ("longitude", Val.num 0)]),
    ("ngoId", Val.str "X"), ("extra", Val.str "E")]⟩

/-- C4 (counterexample): the `main.py` variant reports the document key
`"k1"` as identifier although the record has an explicit `ngoId` field
`"X"`, and the `recommendation.py` variant keeps the candidate but
drops its `extra` field instead of passing it through. -/
theorem c4_counterexample :
    (get_nearby_ngos_main 0 0 50 (Except.ok [doc4])).length = 1
    ∧ dlookup "ngo_id" ((get_nearby_ngos_main 0 0 50 (Except.ok [doc4])).headD [])
        = some (Val.str "k1")
    ∧ dlookup "ngoId" doc4.data = some (Val.str "X")
    ∧ ("k1" : String) ≠ "X"
    ∧ (recOutD haversine_distance 0 0 50 (Except.ok [doc4])).length = 1
    ∧ dlookup "extra" ((recOutD haversine_distance 0 0 50 (Except.ok [doc4])).headD [])
        = none
    ∧ dlookup "extra" doc4.data = some (Val.str "E") := by
  have hm : get_nearby_ngos_main 0 0 50 (Except.ok [doc4])
      = [mkResultMain "k1" doc4.data
          (Val.obj [("latitude", Val.num 0), ("longitude", Val.num 0)])
          (haversine_distance 0 0 0 0)] :=
    getNearbyMain_single rfl rfl rfl (by norm_num) (by norm_num)
      (by rw [cosr_zero]; norm_num) (by rw [haversine_self]; norm_num)
  have hr : recOutD haversine_distance 0 0 50 (Except.ok [doc4])
      = [mkResultRec "k1" doc4.data
          [("latitude", Val.num 0), ("longitude", Val.num 0)] 0 0
          (haversine_distance 0 0 0 0)] :=
    recOutD_single rfl rfl rfl (by rw [haversine_self]; norm_num)
  refine ⟨by rw [hm]; rfl, ?_, rfl, by simp, by rw [hr]; rfl, ?_, rfl⟩
  · rw [hm]
    show dlookup "ngo_id" (mkResultMain "k1" doc4.data _ _) = some (Val.str "k1")
    unfold mkResultMain
    rw [dlookup_spreadInto_none _ _ _ (by simp [doc4, dlookup])]
    unfold mkDict
    apply dlookup_spreadInto_some
    · exact (by decide : (["ngo_id", "ngoName", "distance", "location", "description",
        "contact", "logoUrl", "ngoRating"] : List String).Nodup)
    · simp [dlookup]
  · rw [hr]
    show dlookup "extra" (mkResultRec "k1" doc4.data _ _ _ _) = none
    unfold mkResultRec mkDict
    rw [dlookup_spreadInto_none _ _ _ (by simp [dlookup])]
    rfl

end RealFacts

end GeoSmile
